import Mathlib

set_option autoImplicit false

/-!
Verification development for the racing dashboard core runtime.

Each C/C++ function referenced below is embedded shallowly as a Lean
definition: machine floats are modelled as exact rationals extended with a
NaN marker (`FVal`), unsigned 64-bit arithmetic is carried out on `Nat`
with explicit reduction modulo `2 ^ 64`, C character buffers are modelled
as `List Char` together with the truncation that `strncpy` performs, and
fixed-capacity C arrays are modelled as lists with explicit capacity
checks mirroring the source.
-/

/-- Model of a C `float`/`double`: an exact rational or the NaN marker.
Rounding of finite values is elided; the claims below concern control flow
and exact algebraic identities, not rounding error. -/
inductive FVal where
  | nan : FVal
  | fin : ℚ → FVal
deriving DecidableEq

/-- Read of a possibly-NaN value after the NaN-to-zero replacement that
`evaluate_logic` performs on its inputs (`rd_channel.c` lines 161-164). -/
def FVal.toQ : FVal → ℚ
  | FVal.nan => 0
  | FVal.fin q => q

/-- Unsigned 64-bit subtraction `a - b` as C computes it on `uint64_t`
operands (operands taken modulo `2 ^ 64`). -/
def usub64 (a b : ℕ) : ℕ := (a % 2 ^ 64 + 2 ^ 64 - b % 2 ^ 64) % 2 ^ 64

/-- Model of a C character buffer content: the list of characters stored
before the terminator. -/
abbrev CStr := List Char

namespace CBus

/-- Entry of the numeric table of the C `SignalBus` (`signal_bus.h` lines
14-19). The 32-byte `name` buffer holds at most 31 characters, because
`signal_bus_set_numeric` copies with `strncpy(dst, name, 31)` and forces a
terminator at index 31. -/
structure NumericSignal where
  name : CStr
  value : FVal
  timestamp_ms : ℕ
  has_value : Bool
deriving DecidableEq

instance : Inhabited NumericSignal :=
  ⟨{ name := [], value := FVal.fin 0, timestamp_ms := 0, has_value := false }⟩

/-- Entry of the digital table of the C `SignalBus` (`signal_bus.h` lines
21-26). -/
structure DigitalSignal where
  name : CStr
  value : Bool
  timestamp_ms : ℕ
  has_value : Bool
deriving DecidableEq

/-- The C `SignalBus` (`signal_bus.h` lines 28-33): fixed-capacity arrays
with counts, modelled as lists in registration order.  -/
structure SignalBus where
  numeric : List NumericSignal
  digital : List DigitalSignal
deriving DecidableEq

def MAX_NUMERIC_SIGNALS : ℕ := 64

def MAX_DIGITAL_SIGNALS : ℕ := 32

/-- Name truncation performed when a new entry is created:
`strncpy(bus->numeric[idx].name, name, 31)` keeps only the first 31
characters. -/
def truncName (s : CStr) : CStr := s.take 31

/-- Recursion underlying `find_numeric` (`signal_bus.c` lines 5-10):
index of the first entry whose full stored name compares equal
(`strcmp == 0`) to the queried name. -/
def find_numeric_from : List NumericSignal → CStr → Option ℕ
  | [], _ => none
  | e :: rest, name =>
      if e.name = name then some 0 else (find_numeric_from rest name).map (· + 1)

/-- The C helper `find_numeric` (`signal_bus.c` lines 5-10). -/
def find_numeric (bus : SignalBus) (name : CStr) : Option ℕ :=
  find_numeric_from bus.numeric name

def signal_bus_init : SignalBus := { numeric := [], digital := [] }

/-- The C function `signal_bus_set_numeric` (`signal_bus.c` lines 24-35):
update in place when the name is found, otherwise append a new entry with
the truncated name unless the table is full. -/
def signal_bus_set_numeric (bus : SignalBus) (name : CStr) (value : FVal)
    (now_ms : ℕ) : SignalBus :=
  match find_numeric bus name with
  | some idx =>
      let upd : NumericSignal :=
        { (bus.numeric.getD idx default) with
            value := value, timestamp_ms := now_ms, has_value := true }
      { bus with numeric := bus.numeric.set idx upd }
  | none =>
      if MAX_NUMERIC_SIGNALS ≤ bus.numeric.length then bus
      else
        { bus with numeric := bus.numeric ++
            [{ name := truncName name, value := value, timestamp_ms := now_ms,
               has_value := true }] }

/-- The C function `signal_bus_get_numeric` (`signal_bus.c` lines 50-55):
`some value` exactly when the linear scan finds the name and the entry has
`has_value` set. No finiteness check is performed. -/
def signal_bus_get_numeric (bus : SignalBus) (name : CStr) : Option FVal :=
  match find_numeric bus name with
  | none => none
  | some idx =>
      if (bus.numeric.getD idx default).has_value then
        some (bus.numeric.getD idx default).value
      else none

/-- The C function `signal_bus_timestamp_numeric` (`signal_bus.c` lines
64-68): last write timestamp, 0 when the name is absent. -/
def signal_bus_timestamp_numeric (bus : SignalBus) (name : CStr) : ℕ :=
  match find_numeric bus name with
  | none => 0
  | some idx => (bus.numeric.getD idx default).timestamp_ms

end CBus

namespace FwAlerts

/-- Alert severity levels (`alerts.h` line 11). -/
inductive AlertSeverity where
  | Info : AlertSeverity
  | Warning : AlertSeverity
  | Critical : AlertSeverity
deriving DecidableEq

/-- An alert rule (`alerts.h` lines 13-20). -/
structure Alert where
  id : String
  message : String
  channel : String
  threshold : ℚ
  severity : AlertSeverity
  latch_until_ack : Bool

/-- The firmware signal bus seen by `AlertManager::evaluate`: a
`std::map<std::string, double>` of numeric signals
(`device_runtime.cpp` lines 20-36), modelled as an association list with
first-match lookup. -/
structure SignalBus where
  numeric_signals : List (String × ℚ)

/-- The bus method `get_numeric` (`device_runtime.cpp` lines 32-36): the
mapped value when the name is present. -/
def get_numeric (bus : SignalBus) (name : String) : Option ℚ :=
  bus.numeric_signals.lookup name

/-- Assertion test of one rule in `AlertManager::evaluate` (`alerts.cpp`
line 14): the channel has a value and it is at least the threshold. -/
def asserts (bus : SignalBus) (a : Alert) : Bool :=
  match get_numeric bus a.channel with
  | some v => decide (a.threshold ≤ v)
  | none => false

/-- Per-rule body of the loop in `AlertManager::evaluate` (`alerts.cpp`
lines 12-21): insert on assertion, erase on non-assertion only for
non-latching rules. -/
def evaluateStep (bus : SignalBus) (active : Finset String) (a : Alert) :
    Finset String :=
  if asserts bus a then insert a.id active
  else if a.latch_until_ack then active
  else active.erase a.id

/-- `AlertManager::evaluate` (`alerts.cpp` lines 11-22) over the list of
registered rules, threading the active-alert set. -/
def evaluate (alerts : List Alert) (bus : SignalBus)
    (active : Finset String) : Finset String :=
  alerts.foldl (evaluateStep bus) active

/-- `AlertManager::acknowledge` (`alerts.cpp` line 24). -/
def acknowledge (active : Finset String) (alert_id : String) :
    Finset String :=
  active.erase alert_id

end FwAlerts

namespace CHealth

/-- A staleness rule of the C health monitor (used by
`health_monitor.c`). -/
structure StaleSignalRule where
  signal : CStr
  max_age_ms : ℕ

/-- The C `DataLogger` written through `data_logger_record`
(`data_logger.c` lines 8-13). The capacity constants `LOGGER_LINES` and
`LOGGER_LINE_LEN` are not defined under the sources provided, so they are
carried as fields of the modelled logger. -/
structure DataLogger where
  lines : List CStr
  logger_lines : ℕ
  logger_line_len : ℕ

/-- The C function `data_logger_record` (`data_logger.c` lines 8-13):
drop when full, otherwise append the text truncated to the line buffer
size minus one. -/
def data_logger_record (logger : DataLogger) (text : CStr) : DataLogger :=
  if logger.logger_lines ≤ logger.lines.length then logger
  else { logger with
    lines := logger.lines ++ [text.take (logger.logger_line_len - 1)] }

/-- Diagnostic text produced by the `snprintf` in
`health_monitor_evaluate` (`health_monitor.c` lines 21-22); only its
identity per rule matters for the claims. -/
def healthMessage (rule : StaleSignalRule) : CStr :=
  (String.toList "health: ") ++ rule.signal ++ (String.toList " stale")

/-- Per-rule body of `health_monitor_evaluate` (`health_monitor.c` lines
16-25): skip a zero timestamp, log whenever `now - ts > max_age`
(no rising-edge state is kept). -/
def evaluateStep (bus : CBus.SignalBus) (now_ms : ℕ) (logger : DataLogger)
    (rule : StaleSignalRule) : DataLogger :=
  let ts := CBus.signal_bus_timestamp_numeric bus rule.signal
  if ts = 0 then logger
  else if rule.max_age_ms < usub64 now_ms ts then
    data_logger_record logger (healthMessage rule)
  else logger

/-- `health_monitor_evaluate` (`health_monitor.c` lines 13-26) over the
registered rules. The unused alert-manager argument is omitted. -/
def health_monitor_evaluate (rules : List StaleSignalRule)
    (bus : CBus.SignalBus) (logger : DataLogger) (now_ms : ℕ) : DataLogger :=
  rules.foldl (evaluateStep bus now_ms) logger

/-- Staleness condition a rule reports at a given tick, as computed by the
code: nonzero timestamp strictly older than the allowed age. -/
def staleNow (bus : CBus.SignalBus) (now_ms : ℕ)
    (rule : StaleSignalRule) : Bool :=
  let ts := CBus.signal_bus_timestamp_numeric bus rule.signal
  decide (ts ≠ 0) && decide (rule.max_age_ms < usub64 now_ms ts)

end CHealth


namespace CDisplay

/-- A display routing rule of the C `DisplayManager` (`display_manager.h`
as used by `display_tick`): a nullable predicate function pointer over
the bus, an `int` priority, and a target screen id. The bus type is kept
abstract because `display_tick` only ever applies the predicate to it. -/
structure LogicRoute (Bus : Type) where
  evalFn : Option (Bus → Bool)
  priority : ℤ
  target_screen : String

/-- Initial value of `best_priority` in `display_tick`
(`display_manager.c` line 39). -/
def initBestPriority : ℤ := -2147483647

/-- Predicate outcome of a route as `display_tick` sees it: a NULL
`eval` pointer never matches. -/
def routeMatches {Bus : Type} (bus : Bus) (r : LogicRoute Bus) : Bool :=
  match r.evalFn with
  | some f => f bus
  | none => false

/-- One iteration of the selection loop of `display_tick`
(`display_manager.c` lines 41-47): the accumulator is
`(best_priority, selected)` and is replaced when
`route->eval && route->eval(bus) && route->priority >= best_priority`. -/
def routeStep {Bus : Type} (bus : Bus) (acc : ℤ × String)
    (r : LogicRoute Bus) : ℤ × String :=
  if routeMatches bus r = true ∧ acc.1 ≤ r.priority then
    (r.priority, r.target_screen)
  else acc

/-- Screen selection of `display_tick` (`display_manager.c` lines 37-50):
fold of the loop body over the registered routes, starting from the
currently selected screen; the result is copied back into
`mgr->current`. Rendering (lines 52-57) is not modelled. -/
def display_tick_select {Bus : Type} (routes : List (LogicRoute Bus))
    (bus : Bus) (current : String) : String :=
  (routes.foldl (routeStep bus) (initBestPriority, current)).2

/-- Selection rule as the claim states it, written from the claim text
for comparison with `display_tick_select`: the earliest-registered rule
among the true-predicate rules of maximal priority wins, and the default
screen is selected when no rule matches. -/
def claimedSelect {Bus : Type} (routes : List (LogicRoute Bus)) (bus : Bus)
    (default_screen : String) : String :=
  let ms := routes.filter (fun r => routeMatches bus r)
  match ms.find? (fun r => decide (∀ r2 ∈ ms, r2.priority ≤ r.priority)) with
  | some r => r.target_screen
  | none => default_screen

end CDisplay

namespace RDChan

/-- Logic operations of the firmware channel system, with the case labels
used by the `switch` in `evaluate_logic` (`rd_channel.c` lines 168-320).
`OTHER` stands for any value hitting the `default` branch. -/
inductive RD_LogicOperation where
  | AND : RD_LogicOperation
  | OR : RD_LogicOperation
  | NOT : RD_LogicOperation
  | XOR : RD_LogicOperation
  | GT : RD_LogicOperation
  | LT : RD_LogicOperation
  | GTE : RD_LogicOperation
  | LTE : RD_LogicOperation
  | EQ : RD_LogicOperation
  | RANGE : RD_LogicOperation
  | MAP : RD_LogicOperation
  | MIN : RD_LogicOperation
  | MAX : RD_LogicOperation
  | AVG : RD_LogicOperation
  | SUM : RD_LogicOperation
  | DIFF : RD_LogicOperation
  | MUL : RD_LogicOperation
  | DIV : RD_LogicOperation
  | ABS : RD_LogicOperation
  | CLAMP : RD_LogicOperation
  | DEADBAND : RD_LogicOperation
  | HYSTERESIS : RD_LogicOperation
  | RATE_OF_CHANGE : RD_LogicOperation
  | OTHER : RD_LogicOperation
deriving DecidableEq

/-- Logic channel configuration (`rd_channel.h` lines 68-73): operation,
up to four referenced input channel ids, input count, four parameters.
The fixed arrays are modelled as functions from indices. -/
structure RD_LogicConfig where
  operation : RD_LogicOperation
  input_channels : ℕ → ℕ
  input_count : ℕ
  parameters : ℕ → ℚ

/-- Effective loop bound of `evaluate_logic`: the input-fetch loop runs
for `i < input_count && i < 4`; configurations respect `input_count ≤ 4`
(the `input_channels` array has four slots), so the later loops bounded
only by `input_count` read the same range. -/
def effCount (cfg : RD_LogicConfig) : ℕ := min cfg.input_count 4

/-- Input array of `evaluate_logic` after the fetch loop (`rd_channel.c`
lines 158-164): `inputs` is zero-initialised, each referenced channel
value is fetched through `RD_Channel_GetValue` (NaN when the channel is
missing), and any NaN is replaced by 0 before the operation runs. -/
def logicInputs (cfg : RD_LogicConfig) (getValue : ℕ → FVal) (i : ℕ) : ℚ :=
  if i < effCount cfg then (getValue (cfg.input_channels i)).toQ else 0

/-- The `switch` of `evaluate_logic` (`rd_channel.c` lines 166-322)
applied to the sanitised inputs. Every branch produces a finite value
except division by zero, which produces NaN. -/
def evaluate_logic (cfg : RD_LogicConfig) (getValue : ℕ → FVal) : FVal :=
  let inputs := logicInputs cfg getValue
  let p := cfg.parameters
  let n := effCount cfg
  match cfg.operation with
  | RD_LogicOperation.AND =>
      FVal.fin (if ∀ i ∈ List.range n, inputs i ≠ 0 then 1 else 0)
  | RD_LogicOperation.OR =>
      FVal.fin (if ∃ i ∈ List.range n, inputs i ≠ 0 then 1 else 0)
  | RD_LogicOperation.NOT =>
      FVal.fin (if inputs 0 = 0 then 1 else 0)
  | RD_LogicOperation.XOR =>
      FVal.fin
        (if ((List.range n).filter (fun i => decide (inputs i ≠ 0))).length %
            2 = 1 then 1 else 0)
  | RD_LogicOperation.GT => FVal.fin (if p 0 < inputs 0 then 1 else 0)
  | RD_LogicOperation.LT => FVal.fin (if inputs 0 < p 0 then 1 else 0)
  | RD_LogicOperation.GTE => FVal.fin (if p 0 ≤ inputs 0 then 1 else 0)
  | RD_LogicOperation.LTE => FVal.fin (if inputs 0 ≤ p 0 then 1 else 0)
  | RD_LogicOperation.EQ =>
      FVal.fin (if |inputs 0 - p 0| < 1 / 1000 then 1 else 0)
  | RD_LogicOperation.RANGE =>
      FVal.fin (if p 0 ≤ inputs 0 ∧ inputs 0 ≤ p 1 then 1 else 0)
  | RD_LogicOperation.MAP =>
      FVal.fin (if p 1 ≠ p 0 then
        p 2 + (inputs 0 - p 0) / (p 1 - p 0) * (p 3 - p 2) else 0)
  | RD_LogicOperation.MIN =>
      FVal.fin (((List.range n).drop 1).foldl
        (fun acc i => if inputs i < acc then inputs i else acc) (inputs 0))
  | RD_LogicOperation.MAX =>
      FVal.fin (((List.range n).drop 1).foldl
        (fun acc i => if acc < inputs i then inputs i else acc) (inputs 0))
  | RD_LogicOperation.AVG =>
      FVal.fin (if 0 < cfg.input_count then
        ((List.range n).foldl (fun acc i => acc + inputs i) 0) /
          (cfg.input_count : ℚ)
        else (List.range n).foldl (fun acc i => acc + inputs i) 0)
  | RD_LogicOperation.SUM =>
      FVal.fin ((List.range n).foldl (fun acc i => acc + inputs i) 0)
  | RD_LogicOperation.DIFF => FVal.fin (inputs 0 - inputs 1)
  | RD_LogicOperation.MUL => FVal.fin (inputs 0 * inputs 1)
  | RD_LogicOperation.DIV =>
      if inputs 1 ≠ 0 then FVal.fin (inputs 0 / inputs 1) else FVal.nan
  | RD_LogicOperation.ABS => FVal.fin |inputs 0|
  | RD_LogicOperation.CLAMP =>
      FVal.fin (let r1 := if inputs 0 < p 0 then p 0 else inputs 0
        if p 1 < r1 then p 1 else r1)
  | RD_LogicOperation.DEADBAND =>
      FVal.fin (if |inputs 0| < p 0 then 0 else inputs 0)
  | RD_LogicOperation.HYSTERESIS =>
      FVal.fin (if p 1 ≤ inputs 0 then 1
        else if inputs 0 ≤ p 0 then 0 else p 2)
  | RD_LogicOperation.RATE_OF_CHANGE => FVal.fin (inputs 0)
  | RD_LogicOperation.OTHER => FVal.fin (inputs 0)

/-- Channel-registry lookup backing `RD_Channel_GetValue`
(`rd_channel.c` lines 400-408): the stored value of the channel, or NaN
when no channel with that id exists. Channel values are carried as an
association list from id to stored value. -/
def registryGetValue (chans : List (ℕ × FVal)) (c : ℕ) : FVal :=
  match chans.lookup c with
  | some v => v
  | none => FVal.nan

/-- Hysteresis configuration used in the concrete scenarios: one input
channel (id 0) and parameters `[p0, p1, p2, 0]`. -/
def hystCfg (p0 p1 p2 : ℚ) : RD_LogicConfig :=
  { operation := RD_LogicOperation.HYSTERESIS,
    input_channels := fun _ => 0,
    input_count := 1,
    parameters := fun i =>
      if i = 0 then p0 else if i = 1 then p1 else if i = 2 then p2 else 0 }

/-- Output sequence the code produces on a sequence of input values for a
hysteresis channel: `RD_Channel_Process` passes the configuration by
pointer into `evaluate_logic`, which never writes `parameters[2]` back,
so every evaluation sees the originally configured `p2`. -/
def hysteresisRun (p0 p1 p2 : ℚ) (xs : List ℚ) : List ℚ :=
  xs.map (fun x =>
    (evaluate_logic (hystCfg p0 p1 p2)
      (fun c => if c = 0 then FVal.fin x else FVal.nan)).toQ)

/-- Output sequence the spec describes for the same scenario, modelled
from the spec: after each evaluation the previous state `p2` is replaced
by the produced output, so the in-band outputs repeat the previous
output. -/
def hysteresisSpecRun (p0 p1 : ℚ) (s0 : ℚ) (xs : List ℚ) : List ℚ :=
  (xs.foldl
    (fun acc x =>
      let out : ℚ := if p1 ≤ x then 1 else if x ≤ p0 then 0 else acc.2
      (acc.1 ++ [out], out))
    (([] : List ℚ), s0)).1

end RDChan

namespace ALog

/-- Logger states (`advanced_logger.h` lines 47-54). -/
inductive LogState where
  | STOPPED : LogState
  | ARMED : LogState
  | PRE_TRIGGER : LogState
  | RECORDING : LogState
  | PAUSED : LogState
  | ERROR : LogState
deriving DecidableEq

/-- Trigger modes (`advanced_logger.h` lines 56-63). -/
inductive TriggerMode where
  | NONE : TriggerMode
  | MANUAL : TriggerMode
  | THRESHOLD : TriggerMode
  | DIGITAL_INPUT : TriggerMode
  | GPS_SPEED : TriggerMode
  | GPS_GEOFENCE : TriggerMode
deriving DecidableEq

/-- A log sample (`advanced_logger.h` lines 141-148); the 32-byte channel
name buffer stores at most 31 characters. -/
structure LogSample where
  timestamp_ms : ℕ
  gps_timestamp_utc : ℕ
  sample_number : ℕ
  channel_name : CStr
  value : ℚ
  is_digital : Bool
deriving DecidableEq

/-- Trigger configuration (`advanced_logger.h` lines 86-97); the
pre-trigger sizing fields are absorbed into the ring capacity. -/
structure TriggerConfig where
  mode : TriggerMode
  channel_name : CStr
  threshold_value : ℚ
  threshold_rising : Bool
  is_armed : Bool
  is_triggered : Bool
deriving DecidableEq

/-- Pre-trigger ring buffer (`advanced_logger.h` lines 150-157), modelled
as the held samples oldest-first plus the capacity. -/
structure RingBuffer where
  samples : List LogSample
  capacity : ℕ
deriving DecidableEq

/-- `ring_buffer_push` (`advanced_logger.cpp` lines 60-75): append, and
overwrite the oldest sample when full. -/
def ring_buffer_push (rb : RingBuffer) (s : LogSample) : RingBuffer :=
  if rb.samples.length < rb.capacity then
    { rb with samples := rb.samples ++ [s] }
  else { rb with samples := rb.samples.drop 1 ++ [s] }

/-- The logger state relevant to `advanced_logger_log_sample`
(`advanced_logger.h` lines 159-183). `channels` keeps the whitelist
entries as name-enabled pairs, `output` is the stream of samples appended
to the write buffer (and later flushed verbatim to the file; the flush
itself does not reorder or drop, `advanced_logger.cpp` lines 284-303),
and `write_capacity` is the write-buffer capacity counted in samples,
abstracting the byte arithmetic of `buffer_size_kb`. -/
structure AdvancedLogger where
  state : LogState
  trigger : TriggerConfig
  use_whitelist : Bool
  channels : List (CStr × Bool)
  ring_buffer : RingBuffer
  output : List LogSample
  total_samples_written : ℕ
  write_capacity : ℕ
deriving DecidableEq

/-- `advanced_logger_start` (`advanced_logger.cpp` lines 128-161) with
the SD file open assumed to succeed: no change while recording, otherwise
the state becomes `RECORDING` and the sample counter resets. Neither the
ring buffer nor the output stream is touched. -/
def advanced_logger_start (lg : AdvancedLogger) : AdvancedLogger :=
  if lg.state = LogState.RECORDING then lg
  else { lg with state := LogState.RECORDING, total_samples_written := 0 }

/-- `advanced_logger_log_sample` (`advanced_logger.cpp` lines 198-276):
whitelist check, sample construction, pre-trigger buffering with the
threshold-trigger test (whose pre-trigger flush is an unimplemented TODO
at lines 240-242, so the output stream is not written there), and the
recording-path append to the write buffer. The CSV/binary encoding is
abstracted to the sample itself and the 80% auto-flush to a no-op on the
combined output stream. -/
def advanced_logger_log_sample (lg : AdvancedLogger) (channel : CStr)
    (value : ℚ) (timestamp_ms : ℕ) (is_digital : Bool) :
    AdvancedLogger × Bool :=
  if lg.use_whitelist = true ∧
      ¬∃ c ∈ lg.channels, c.1 = channel ∧ c.2 = true then (lg, false)
  else
    let sample : LogSample :=
      { timestamp_ms := timestamp_ms, gps_timestamp_utc := 0,
        sample_number := lg.total_samples_written,
        channel_name := channel.take 31, value := value,
        is_digital := is_digital }
    if lg.state = LogState.ARMED ∨ lg.state = LogState.PRE_TRIGGER then
      let lg1 :=
        { lg with ring_buffer := ring_buffer_push lg.ring_buffer sample }
      if lg1.trigger.mode = TriggerMode.THRESHOLD ∧
          lg1.trigger.channel_name = channel ∧
          (if lg1.trigger.threshold_rising = true then
            lg1.trigger.threshold_value < value
           else value < lg1.trigger.threshold_value) ∧
          lg1.trigger.is_triggered = false then
        let lg2 :=
          { lg1 with trigger := { lg1.trigger with is_triggered := true } }
        (advanced_logger_start lg2, true)
      else (lg1, true)
    else if lg.state ≠ LogState.RECORDING then (lg, false)
    else
      let lg3 :=
        if lg.output.length + 1 ≤ lg.write_capacity then
          { lg with output := lg.output ++ [sample] }
        else lg
      ({ lg3 with total_samples_written := lg3.total_samples_written + 1 },
        true)

end ALog

/-- Concrete armed logger for the pre-trigger scenario: rising threshold
trigger at 5000 on channel `rpm`, empty ring buffer with room for 8
samples, empty output stream, no whitelist. -/
def c6ArmedLogger : ALog.AdvancedLogger :=
  { state := ALog.LogState.ARMED,
    trigger := { mode := ALog.TriggerMode.THRESHOLD,
                 channel_name := String.toList "rpm",
                 threshold_value := 5000, threshold_rising := true,
                 is_armed := true, is_triggered := false },
    use_whitelist := false, channels := [],
    ring_buffer := { samples := [], capacity := 8 },
    output := [], total_samples_written := 0, write_capacity := 100 }

/-- Logger after the first (below-threshold) sample `rpm = 1000` at
t = 100. -/
def c6AfterSample1 : ALog.AdvancedLogger :=
  (ALog.advanced_logger_log_sample c6ArmedLogger (String.toList "rpm")
    1000 100 false).1

/-- Logger after the triggering sample `rpm = 6000` at t = 200. -/
def c6AfterSample2 : ALog.AdvancedLogger :=
  (ALog.advanced_logger_log_sample c6AfterSample1 (String.toList "rpm")
    6000 200 false).1

/-- Logger after the first post-trigger sample `rpm = 6100` at t = 300. -/
def c6AfterSample3 : ALog.AdvancedLogger :=
  (ALog.advanced_logger_log_sample c6AfterSample2 (String.toList "rpm")
    6100 300 false).1

namespace LapT

def MAX_SECTORS : ℕ := 10

def MAX_LAPS : ℕ := 1000

/-- A lap record (`lap_timer.h` lines 61-81). Positions and speeds are
exact rationals; fields that `lap_timer_update` never assigns keep their
`memset` zero values. -/
structure LapRecord where
  lap_number : ℕ
  lap_time_ms : ℕ
  sector_times_ms : List ℕ
  sector_valid : List Bool
  max_speed_kmh : ℚ
  avg_speed_kmh : ℚ
  min_speed_kmh : ℚ
  start_lat : ℚ
  start_lon : ℚ
  timestamp_utc : ℕ
  is_valid : Bool
  is_out_lap : Bool
  is_in_lap : Bool
deriving DecidableEq

/-- The all-zero record produced by `memset(..., 0, sizeof(LapRecord))`. -/
def zeroRecord : LapRecord :=
  { lap_number := 0, lap_time_ms := 0,
    sector_times_ms := List.replicate MAX_SECTORS 0,
    sector_valid := List.replicate MAX_SECTORS false,
    max_speed_kmh := 0, avg_speed_kmh := 0, min_speed_kmh := 0,
    start_lat := 0, start_lon := 0, timestamp_utc := 0,
    is_valid := false, is_out_lap := false, is_in_lap := false }

/-- Mutable lap state (`lap_timer.h` lines 83-94). -/
structure LapState where
  current_sector : ℕ
  sector_start_time_ms : ℕ
  lap_start_time_ms : ℕ
  last_lat : ℚ
  last_lon : ℚ
  current_speed_kmh : ℚ
  in_lap_now : Bool
  sector_triggered : List Bool
deriving DecidableEq

/-- The lap timer (`lap_timer.h` lines 96-122). Of the loaded `TrackMap`
only the fields that `lap_timer_update` reads are kept: the sector count
and the track length; the line geometry is abstracted into the crossing
booleans passed to `lap_timer_update` (in the source they are the results
of `lap_timer_check_crossing` at the current GPS position). Fields that
the update path never reads (predicted time, statistics) are omitted. -/
structure LapTimer where
  track_loaded : Bool
  sector_count : ℕ
  track_length_m : ℚ
  laps : List LapRecord
  best_lap : LapRecord
  last_lap : LapRecord
  current_lap : LapRecord
  state : LapState
  current_lap_delta_ms : ℤ
  sector_delta_ms : List ℤ
deriving DecidableEq

/-- `lap_timer_init` (`lap_timer.cpp` lines 67-75): everything zeroed,
no track loaded. -/
def lap_timer_init : LapTimer :=
  { track_loaded := false, sector_count := 0, track_length_m := 0,
    laps := [], best_lap := zeroRecord, last_lap := zeroRecord,
    current_lap := zeroRecord,
    state := { current_sector := 0, sector_start_time_ms := 0,
               lap_start_time_ms := 0, last_lat := 0, last_lon := 0,
               current_speed_kmh := 0, in_lap_now := false,
               sector_triggered := List.replicate MAX_SECTORS false },
    current_lap_delta_ms := 0,
    sector_delta_ms := List.replicate MAX_SECTORS 0 }

/-- `lap_timer_load_track` (`lap_timer.cpp` lines 77-87) restricted to
the track fields the update path reads. -/
def lap_timer_load_track (lt : LapTimer) (sector_count : ℕ)
    (track_length_m : ℚ) : LapTimer :=
  { lt with track_loaded := true, sector_count := sector_count,
            track_length_m := track_length_m }

/-- Truncation toward zero performed by a C integer cast of a float; on
the nonnegative values arising here it agrees with the floor. -/
def truncQ (q : ℚ) : ℤ := q.num / (q.den : ℤ)

/-- The delta computation of `lap_timer_update` (`lap_timer.cpp` lines
193-198): `progress = current_time / best_total`,
`expected = trunc(best_total * progress)`,
`delta = current_time - expected`. The 32-bit wrap of the casts is
elided (lap times stay far below 2^31 ms). -/
def computeLapDelta (best : LapRecord) (current_time : ℕ) : ℤ :=
  let progress : ℚ := (current_time : ℚ) / (best.lap_time_ms : ℚ)
  let expected : ℤ := truncQ ((best.lap_time_ms : ℚ) * progress)
  (current_time : ℤ) - expected

/-- Body of the sector-crossing loop of `lap_timer_update`
(`lap_timer.cpp` lines 176-190) for sector index `i`. -/
def sectorStep (crossSector : ℕ → Bool) (timestamp_ms : ℕ) (lt : LapTimer)
    (i : ℕ) : LapTimer :=
  if lt.state.sector_triggered.getD i false = false ∧
      crossSector i = true then
    let stamp := usub64 timestamp_ms lt.state.lap_start_time_ms
    let lt1 := { lt with
      state := { lt.state with
        sector_triggered := lt.state.sector_triggered.set i true,
        current_sector := i + 1 },
      current_lap := { lt.current_lap with
        sector_times_ms := lt.current_lap.sector_times_ms.set i stamp } }
    if lt1.best_lap.is_valid = true then
      let d : ℤ := (stamp : ℤ) - (lt1.best_lap.sector_times_ms.getD i 0 : ℤ)
      { lt1 with sector_delta_ms := lt1.sector_delta_ms.set i d }
    else lt1
  else lt

/-- Lap-completion block of `lap_timer_update` (`lap_timer.cpp` lines
113-159), entered on a start/finish crossing while `in_lap_now`: record
the lap (always with `is_valid = true`), update best and last lap, then
reset the current lap and the sector flags. -/
def closeLap (lt : LapTimer) (timestamp_ms : ℕ) : LapTimer :=
  let lap_time_ms := usub64 timestamp_ms lt.state.lap_start_time_ms
  let lt1 :=
    if lt.laps.length < MAX_LAPS then
      let lap : LapRecord :=
        { zeroRecord with
          lap_number := lt.laps.length + 1,
          lap_time_ms := lap_time_ms,
          max_speed_kmh := lt.current_lap.max_speed_kmh,
          avg_speed_kmh :=
            (lt.track_length_m / 1000) / ((lap_time_ms : ℚ) / 3600000),
          start_lat := lt.current_lap.start_lat,
          start_lon := lt.current_lap.start_lon,
          timestamp_utc := timestamp_ms,
          is_valid := true,
          sector_times_ms := lt.current_lap.sector_times_ms }
      let lt2 := { lt with laps := lt.laps ++ [lap] }
      let lt3 :=
        if lt2.best_lap.lap_time_ms = 0 ∨
            lap_time_ms < lt2.best_lap.lap_time_ms then
          { lt2 with best_lap := lap }
        else lt2
      { lt3 with last_lap := lap }
    else lt
  { lt1 with
    current_lap := zeroRecord,
    state := { lt1.state with
      current_sector := 0,
      sector_triggered := List.replicate MAX_SECTORS false } }

/-- `lap_timer_update` (`lap_timer.cpp` lines 102-201) with the two
geometric crossing tests of `lap_timer_check_crossing` supplied as the
booleans `crossSF` (start/finish line) and `crossSector i` (the i-th
sector line), both evaluated at the current GPS position. -/
def lap_timer_update (lt : LapTimer) (crossSF : Bool)
    (crossSector : ℕ → Bool) (lat lon speed_kmh : ℚ)
    (timestamp_ms : ℕ) : LapTimer :=
  if lt.track_loaded = false then lt
  else
    let lt0 := { lt with state := { lt.state with
      last_lat := lat, last_lon := lon, current_speed_kmh := speed_kmh } }
    let lt1 :=
      if crossSF = true then
        let ltA :=
          if lt0.state.in_lap_now = true then closeLap lt0 timestamp_ms
          else lt0
        { ltA with
          state := { ltA.state with
            in_lap_now := true,
            lap_start_time_ms := timestamp_ms },
          current_lap := { ltA.current_lap with
            start_lat := lat, start_lon := lon,
            max_speed_kmh := speed_kmh } }
      else lt0
    if lt1.state.in_lap_now = true then
      let lt2 :=
        if lt1.current_lap.max_speed_kmh < speed_kmh then
          { lt1 with current_lap := { lt1.current_lap with
            max_speed_kmh := speed_kmh } }
        else lt1
      let lt3 := (List.range lt2.sector_count).foldl
        (sectorStep crossSector timestamp_ms) lt2
      if lt3.best_lap.is_valid = true then
        let d := computeLapDelta lt3.best_lap
          (usub64 timestamp_ms lt3.state.lap_start_time_ms)
        { lt3 with current_lap_delta_ms := d }
      else lt3
    else lt1

end LapT

/-- Four-update GPS scenario on a two-sector track: start/finish crossing
at `t0` opens the lap, sector line 1 is crossed at `t1`, sector line 2 at
`t2`, and the start/finish crossing at `tf` closes the lap. -/
def c3Run (t0 t1 t2 tf : ℕ) : LapT.LapTimer :=
  LapT.lap_timer_update
    (LapT.lap_timer_update
      (LapT.lap_timer_update
        (LapT.lap_timer_update
          (LapT.lap_timer_load_track LapT.lap_timer_init 2 7004)
          true (fun _ => false) 0 0 0 t0)
        false (fun i => i == 0) 0 0 0 t1)
      false (fun i => i == 1) 0 0 0 t2)
    true (fun _ => false) 0 0 0 tf

/-- State after the first update of the two-sector scenario: lap opened
at `t0`. -/
def sc3S1 (t0 : ℕ) : LapT.LapTimer :=
  { track_loaded := true, sector_count := 2, track_length_m := 7004,
    laps := [], best_lap := LapT.zeroRecord, last_lap := LapT.zeroRecord,
    current_lap := LapT.zeroRecord,
    state := { current_sector := 0, sector_start_time_ms := 0,
               lap_start_time_ms := t0, last_lat := 0, last_lon := 0,
               current_speed_kmh := 0, in_lap_now := true,
               sector_triggered := List.replicate 10 false },
    current_lap_delta_ms := 0,
    sector_delta_ms := List.replicate 10 0 }

/-- State after additionally crossing sector line 1 at `t1`. -/
def sc3S2 (t0 t1 : ℕ) : LapT.LapTimer :=
  { track_loaded := true, sector_count := 2, track_length_m := 7004,
    laps := [], best_lap := LapT.zeroRecord, last_lap := LapT.zeroRecord,
    current_lap := { LapT.zeroRecord with
      sector_times_ms := usub64 t1 t0 :: List.replicate 9 0 },
    state := { current_sector := 1, sector_start_time_ms := 0,
               lap_start_time_ms := t0, last_lat := 0, last_lon := 0,
               current_speed_kmh := 0, in_lap_now := true,
               sector_triggered := true :: List.replicate 9 false },
    current_lap_delta_ms := 0,
    sector_delta_ms := List.replicate 10 0 }

/-- State after additionally crossing sector line 2 at `t2`. -/
def sc3S3 (t0 t1 t2 : ℕ) : LapT.LapTimer :=
  { track_loaded := true, sector_count := 2, track_length_m := 7004,
    laps := [], best_lap := LapT.zeroRecord, last_lap := LapT.zeroRecord,
    current_lap := { LapT.zeroRecord with
      sector_times_ms := usub64 t1 t0 :: usub64 t2 t0 ::
        List.replicate 8 0 },
    state := { current_sector := 2, sector_start_time_ms := 0,
               lap_start_time_ms := t0, last_lat := 0, last_lon := 0,
               current_speed_kmh := 0, in_lap_now := true,
               sector_triggered := true :: true :: List.replicate 8 false },
    current_lap_delta_ms := 0,
    sector_delta_ms := List.replicate 10 0 }

/-- The lap record closed by the final start/finish crossing at `tf`. -/
def sc3Lap (t0 t1 t2 tf : ℕ) : LapT.LapRecord :=
  { LapT.zeroRecord with
    lap_number := 1,
    lap_time_ms := usub64 tf t0,
    sector_times_ms := usub64 t1 t0 :: usub64 t2 t0 :: List.replicate 8 0,
    avg_speed_kmh := ((7004 : ℚ) / 1000) / ((usub64 tf t0 : ℚ) / 3600000),
    timestamp_utc := tf,
    is_valid := true }

/-- State after the final start/finish crossing at `tf`: the lap is
recorded, becomes best and last lap, and a new lap is opened. -/
def sc3S4 (t0 t1 t2 tf : ℕ) : LapT.LapTimer :=
  { track_loaded := true, sector_count := 2, track_length_m := 7004,
    laps := [sc3Lap t0 t1 t2 tf],
    best_lap := sc3Lap t0 t1 t2 tf,
    last_lap := sc3Lap t0 t1 t2 tf,
    current_lap := LapT.zeroRecord,
    state := { current_sector := 0, sector_start_time_ms := 0,
               lap_start_time_ms := tf, last_lat := 0, last_lon := 0,
               current_speed_kmh := 0, in_lap_now := true,
               sector_triggered := List.replicate 10 false },
    current_lap_delta_ms :=
      LapT.computeLapDelta (sc3Lap t0 t1 t2 tf) (usub64 tf tf),
    sector_delta_ms := List.replicate 10 0 }

-- DEFS-END

theorem usub64_eq_sub {a b : ℕ} (hba : b ≤ a) (ha : a < 2 ^ 64) :
    usub64 a b = a - b := by
  unfold usub64
  omega

namespace CBus

theorem find_numeric_from_eq_none {l : List NumericSignal} {name : CStr}
    (h : ∀ e ∈ l, e.name ≠ name) : find_numeric_from l name = none := by
  induction l with
  | nil => rfl
  | cons e rest ih =>
      simp only [find_numeric_from]
      rw [if_neg (h e (List.mem_cons_self e rest))]
      rw [ih (fun e' he' => h e' (List.mem_cons_of_mem e he'))]
      rfl

theorem find_numeric_from_append_singleton {l : List NumericSignal}
    {name : CStr} (h : find_numeric_from l name = none) (e : NumericSignal) :
    find_numeric_from (l ++ [e]) name =
      if e.name = name then some l.length else none := by
  induction l with
  | nil => simp [find_numeric_from]
  | cons e0 rest ih =>
      simp only [find_numeric_from] at h
      by_cases h0 : e0.name = name
      · rw [if_pos h0] at h
        exact Option.noConfusion h
      · rw [if_neg h0] at h
        have hrest : find_numeric_from rest name = none := by
          cases hfr : find_numeric_from rest name with
          | none => rfl
          | some i => rw [hfr] at h; exact Option.noConfusion h
        show find_numeric_from (e0 :: (rest ++ [e])) name = _
        simp only [find_numeric_from]
        rw [if_neg h0, ih hrest]
        by_cases he : e.name = name
        · simp [he, List.length_cons]
        · simp [he]

theorem find_numeric_from_mem_of_some {l : List NumericSignal} {name : CStr}
    {i : ℕ} (h : find_numeric_from l name = some i) :
    i < l.length ∧ (l.getD i default).name = name := by
  induction l generalizing i with
  | nil => simp [find_numeric_from] at h
  | cons e rest ih =>
      simp only [find_numeric_from] at h
      by_cases h0 : e.name = name
      · rw [if_pos h0] at h
        cases h
        simpa using h0
      · rw [if_neg h0] at h
        cases hrest : find_numeric_from rest name with
        | none => rw [hrest] at h; exact Option.noConfusion h
        | some j =>
            rw [hrest] at h
            have hij : i = j + 1 := by
              cases h
              rfl
            subst hij
            obtain ⟨hlt, hname⟩ := ih hrest
            refine ⟨by simpa using Nat.succ_lt_succ hlt, ?_⟩
            simpa using hname

theorem find_numeric_from_set {l : List NumericSignal} {name : CStr} {i : ℕ}
    {e : NumericSignal} (h : find_numeric_from l name = some i)
    (he : e.name = name) : find_numeric_from (l.set i e) name = some i := by
  induction l generalizing i with
  | nil => simp [find_numeric_from] at h
  | cons e0 rest ih =>
      simp only [find_numeric_from] at h
      by_cases h0 : e0.name = name
      · rw [if_pos h0] at h
        cases h
        simp [List.set, find_numeric_from, he]
      · rw [if_neg h0] at h
        cases hrest : find_numeric_from rest name with
        | none => rw [hrest] at h; exact Option.noConfusion h
        | some j =>
            rw [hrest] at h
            have hij : i = j + 1 := by
              cases h
              rfl
            subst hij
            simp only [List.set, find_numeric_from]
            rw [if_neg h0, ih hrest]
            rfl

end CBus

theorem list_getD_append_length {α : Type} (l : List α) (e : α) (d : α) :
    (l ++ [e]).getD l.length d = e := by
  induction l with
  | nil => rfl
  | cons x rest ih => simp [ih]

theorem list_getD_set_self {α : Type} {l : List α} {i : ℕ} (h : i < l.length)
    (e d : α) : (l.set i e).getD i d = e := by
  induction l generalizing i with
  | nil => simp at h
  | cons x rest ih =>
      cases i with
      | zero => rfl
      | succ j => simpa [List.set] using ih (by simpa using h)

/-- C8 counterexample: a NaN-valued numeric signal stored through
`signal_bus_set_numeric` is returned by `signal_bus_get_numeric`, so the
getter does not treat NaN as invalid and does not require finiteness. -/
theorem c8_counterexample :
    CBus.signal_bus_get_numeric
        (CBus.signal_bus_set_numeric CBus.signal_bus_init (['x']) FVal.nan 5)
        (['x']) = some FVal.nan ∧
      some FVal.nan ≠ (none : Option FVal) := by
  exact ⟨rfl, by simp⟩

/-- C8 (amended): for every signal name of at most 31 characters, after a
set on a non-full table the numeric getter returns `some` of the stored
value whenever the entry is present with `has_value` set, regardless of
whether that value is finite or NaN; no finiteness check is performed. -/
theorem c8_amended_get_numeric (bus : CBus.SignalBus) (name : CStr) (v : FVal)
    (t : ℕ) (hname : name.length ≤ 31)
    (hcap : bus.numeric.length < CBus.MAX_NUMERIC_SIGNALS) :
    CBus.signal_bus_get_numeric (CBus.signal_bus_set_numeric bus name v t) name =
      some v := by
  unfold CBus.signal_bus_set_numeric
  cases hfind : CBus.find_numeric bus name with
  | some idx =>
      obtain ⟨hlt, hnm⟩ := CBus.find_numeric_from_mem_of_some hfind
      simp only
      unfold CBus.signal_bus_get_numeric CBus.find_numeric
      rw [CBus.find_numeric_from_set hfind (by simpa using hnm)]
      simp only
      rw [list_getD_set_self (by simpa using hlt)]
      simp
  | none =>
      simp only
      rw [if_neg (by omega)]
      unfold CBus.signal_bus_get_numeric CBus.find_numeric
      simp only
      have htr : CBus.truncName name = name := List.take_of_length_le hname
      rw [CBus.find_numeric_from_append_singleton hfind]
      simp [htr, list_getD_append_length]

/-- Witness for C8 (amended) at a concrete one-character name on the empty
bus. -/
theorem c8_amended_get_numeric_witness :
    (['q'] : CStr).length ≤ 31 ∧
      CBus.signal_bus_get_numeric
        (CBus.signal_bus_set_numeric CBus.signal_bus_init (['q']) (FVal.fin 3) 9)
        (['q']) = some (FVal.fin 3) :=
  ⟨by decide,
    c8_amended_get_numeric CBus.signal_bus_init (['q']) (FVal.fin 3) 9
      (by decide) (by decide)⟩

/-- C10: a set with a name longer than 31 characters stores the entry
under the truncated name, a get with the untruncated name finds nothing,
and while capacity remains every further set with that name appends one
more truncated-name entry; stored names always stay at most 31 characters
long. -/
theorem c10_truncated_name_entries (bus : CBus.SignalBus) (name : CStr)
    (v : FVal) (t : ℕ) (hlong : 31 < name.length)
    (hinv : ∀ e ∈ bus.numeric, e.name.length ≤ 31) :
    CBus.signal_bus_get_numeric (CBus.signal_bus_set_numeric bus name v t) name =
        none ∧
      (bus.numeric.length < CBus.MAX_NUMERIC_SIGNALS →
        (CBus.signal_bus_set_numeric bus name v t).numeric =
          bus.numeric ++
            [{ name := CBus.truncName name, value := v, timestamp_ms := t,
               has_value := true }]) ∧
      ∀ e ∈ (CBus.signal_bus_set_numeric bus name v t).numeric,
        e.name.length ≤ 31 := by
  have hne : ∀ e ∈ bus.numeric, e.name ≠ name := by
    intro e he heq
    have := hinv e he
    rw [heq] at this
    omega
  have hfind : CBus.find_numeric bus name = none :=
    CBus.find_numeric_from_eq_none hne
  have htrunc_len : (CBus.truncName name).length ≤ 31 := by
    simp [CBus.truncName]
  have htrunc_ne : CBus.truncName name ≠ name := by
    intro heq
    have : (CBus.truncName name).length = name.length := by rw [heq]
    omega
  unfold CBus.signal_bus_set_numeric
  rw [hfind]
  by_cases hfull : CBus.MAX_NUMERIC_SIGNALS ≤ bus.numeric.length
  · rw [if_pos hfull]
    refine ⟨?_, ?_, hinv⟩
    · unfold CBus.signal_bus_get_numeric
      rw [hfind]
    · intro hlt
      exact absurd hfull (by omega)
  · rw [if_neg hfull]
    refine ⟨?_, fun _ => rfl, ?_⟩
    · unfold CBus.signal_bus_get_numeric CBus.find_numeric
      simp only
      rw [CBus.find_numeric_from_append_singleton hfind]
      rw [if_neg htrunc_ne]
    · intro e he
      rcases List.mem_append.mp he with he | he
      · exact hinv e he
      · rcases List.mem_singleton.mp he with rfl
        exact htrunc_len

/-- Witness for C10 at a concrete 32-character name on the empty bus. -/
theorem c10_truncated_name_entries_witness :
    31 < (List.replicate 32 'a' : CStr).length ∧
      CBus.signal_bus_get_numeric
        (CBus.signal_bus_set_numeric CBus.signal_bus_init
          (List.replicate 32 'a') (FVal.fin 7) 2)
        (List.replicate 32 'a') = none :=
  ⟨by decide,
    (c10_truncated_name_entries CBus.signal_bus_init (List.replicate 32 'a')
        (FVal.fin 7) 2 (by decide)
        (by intro e he; simp [CBus.signal_bus_init] at he)).1⟩

theorem fw_mem_evaluate_of_mem (alerts : List FwAlerts.Alert)
    (bus : FwAlerts.SignalBus) {active : Finset String} {id : String}
    (hlatch : ∀ a ∈ alerts, a.id = id → a.latch_until_ack = true)
    (hmem : id ∈ active) : id ∈ FwAlerts.evaluate alerts bus active := by
  induction alerts generalizing active with
  | nil => exact hmem
  | cons a rest ih =>
      show id ∈ FwAlerts.evaluate rest bus (FwAlerts.evaluateStep bus active a)
      refine ih (fun a' h' heq => hlatch a' (List.mem_cons_of_mem a h') heq) ?_
      unfold FwAlerts.evaluateStep
      by_cases hA : FwAlerts.asserts bus a = true
      · rw [if_pos hA]
        exact Finset.mem_insert_of_mem hmem
      · rw [if_neg hA]
        by_cases hl : a.latch_until_ack = true
        · rw [if_pos hl]
          exact hmem
        · rw [if_neg hl]
          refine Finset.mem_erase.mpr ⟨?_, hmem⟩
          intro heq
          exact hl (hlatch a (List.mem_cons_self a rest) heq.symm)

theorem fw_mem_evaluate_many {alerts : List FwAlerts.Alert} {id : String}
    (hlatch : ∀ a ∈ alerts, a.id = id → a.latch_until_ack = true) :
    ∀ (buses : List FwAlerts.SignalBus) (active : Finset String),
      id ∈ active →
        id ∈ buses.foldl (fun s bus => FwAlerts.evaluate alerts bus s) active := by
  intro buses
  induction buses with
  | nil => intro active h; exact h
  | cons bus rest ih =>
      intro active h
      exact ih _ (fw_mem_evaluate_of_mem alerts bus hlatch h)

/-- C2: once the id of a rule whose registrations under that id all latch
is in the active set, any sequence of `evaluate` calls (asserting or not)
keeps it there, and `acknowledge` with that id removes it. -/
theorem c2_latched_alert_persists (alerts : List FwAlerts.Alert)
    (active : Finset String) (id : String)
    (hlatch : ∀ a ∈ alerts, a.id = id → a.latch_until_ack = true)
    (hmem : id ∈ active) :
    (∀ buses : List FwAlerts.SignalBus,
        id ∈ buses.foldl (fun s bus => FwAlerts.evaluate alerts bus s) active) ∧
      id ∉ FwAlerts.acknowledge active id := by
  refine ⟨fun buses => fw_mem_evaluate_many hlatch buses active hmem, ?_⟩
  unfold FwAlerts.acknowledge
  simp

/-- Witness for C2: one latched oil-pressure rule, one evaluate call on a
bus where the rule does not assert; the id stays active. -/
theorem c2_latched_alert_persists_witness :
    ("oil" ∈ ({"oil"} : Finset String)) ∧
      "oil" ∈
        ([({ numeric_signals := [] } : FwAlerts.SignalBus)].foldl
          (fun s bus =>
            FwAlerts.evaluate
              [{ id := "oil", message := "oil pressure low",
                 channel := "oil_pressure", threshold := 50,
                 severity := FwAlerts.AlertSeverity.Critical,
                 latch_until_ack := true }] bus s)
          {"oil"}) :=
  ⟨by decide,
    (c2_latched_alert_persists
        [{ id := "oil", message := "oil pressure low",
           channel := "oil_pressure", threshold := 50,
           severity := FwAlerts.AlertSeverity.Critical,
           latch_until_ack := true }]
        {"oil"} "oil" (by intro a ha heq; simp at ha; rw [ha])
        (by decide)).1
      [{ numeric_signals := [] }]⟩

/-- C7 counterexample: with `coolant_temp` written at t=100 and
`max_age = 2500`, the health monitor logs a line at t=2700 and logs a
second line at t=2800 although the signal has been continuously stale,
so the diagnostic line is not one-shot. -/
theorem c7_counterexample :
    (CHealth.health_monitor_evaluate
        [{ signal := String.toList "coolant_temp", max_age_ms := 2500 }]
        (CBus.signal_bus_set_numeric CBus.signal_bus_init
          (String.toList "coolant_temp") (FVal.fin 90) 100)
        { lines := [], logger_lines := 16, logger_line_len := 120 }
        2700).lines.length = 1 ∧
      (CHealth.health_monitor_evaluate
          [{ signal := String.toList "coolant_temp", max_age_ms := 2500 }]
          (CBus.signal_bus_set_numeric CBus.signal_bus_init
            (String.toList "coolant_temp") (FVal.fin 90) 100)
          (CHealth.health_monitor_evaluate
            [{ signal := String.toList "coolant_temp", max_age_ms := 2500 }]
            (CBus.signal_bus_set_numeric CBus.signal_bus_init
              (String.toList "coolant_temp") (FVal.fin 90) 100)
            { lines := [], logger_lines := 16, logger_line_len := 120 }
            2700)
          2800).lines.length = 2 := by
  exact ⟨by decide, by decide⟩

/-- C7 (amended): on every evaluation tick the health monitor appends one
diagnostic line for each rule whose signal is stale at that tick (nonzero
timestamp older than `max_age`); it keeps no rising-edge state, so the
line is re-emitted on every tick while the signal stays stale. -/
theorem c7_amended_stale_log_each_tick (rules : List CHealth.StaleSignalRule)
    (bus : CBus.SignalBus) (logger : CHealth.DataLogger) (now_ms : ℕ)
    (hcap : logger.lines.length + rules.length ≤ logger.logger_lines) :
    (CHealth.health_monitor_evaluate rules bus logger now_ms).lines.length =
      logger.lines.length + (rules.filter (CHealth.staleNow bus now_ms)).length := by
  induction rules generalizing logger with
  | nil => simp [CHealth.health_monitor_evaluate]
  | cons rule rest ih =>
      show (CHealth.health_monitor_evaluate rest bus
          (CHealth.evaluateStep bus now_ms logger rule) now_ms).lines.length = _
      have hstep :
          (CHealth.evaluateStep bus now_ms logger rule).lines.length =
              logger.lines.length +
                (if CHealth.staleNow bus now_ms rule then 1 else 0) ∧
            (CHealth.evaluateStep bus now_ms logger rule).logger_lines =
              logger.logger_lines := by
        unfold CHealth.evaluateStep CHealth.data_logger_record CHealth.staleNow
        by_cases h0 : CBus.signal_bus_timestamp_numeric bus rule.signal = 0
        · simp [h0]
        · rw [if_neg h0]
          by_cases h1 : rule.max_age_ms <
              usub64 now_ms (CBus.signal_bus_timestamp_numeric bus rule.signal)
          · rw [if_pos h1]
            have hroom : ¬ logger.logger_lines ≤ logger.lines.length := by
              simp only [List.length_cons] at hcap
              omega
            rw [if_neg hroom]
            simp [h0, h1]
          · rw [if_neg h1]
            simp [h0, h1]
      rw [ih _ (by
        rw [hstep.1, hstep.2]
        simp only [List.length_cons] at hcap
        by_cases hs : CHealth.staleNow bus now_ms rule <;> simp [hs] <;> omega)]
      rw [hstep.1]
      by_cases hs : CHealth.staleNow bus now_ms rule <;>
        · simp [hs, List.filter_cons]
          try omega

/-- Witness for C7 (amended) at the concrete stale-coolant scenario. -/
theorem c7_amended_stale_log_each_tick_witness :
    (0 + 1 ≤ 16) ∧
      (CHealth.health_monitor_evaluate
          [{ signal := String.toList "coolant_temp", max_age_ms := 2500 }]
          (CBus.signal_bus_set_numeric CBus.signal_bus_init
            (String.toList "coolant_temp") (FVal.fin 90) 100)
          { lines := [], logger_lines := 16, logger_line_len := 120 }
          2700).lines.length =
        0 + ([({ signal := String.toList "coolant_temp", max_age_ms := 2500 } :
              CHealth.StaleSignalRule)].filter
              (CHealth.staleNow
                (CBus.signal_bus_set_numeric CBus.signal_bus_init
                  (String.toList "coolant_temp") (FVal.fin 90) 100) 2700)).length :=
  ⟨by decide,
    c7_amended_stale_log_each_tick
      [{ signal := String.toList "coolant_temp", max_age_ms := 2500 }]
      (CBus.signal_bus_set_numeric CBus.signal_bus_init
        (String.toList "coolant_temp") (FVal.fin 90) 100)
      { lines := [], logger_lines := 16, logger_line_len := 120 }
      2700 (by decide)⟩

theorem cdisplay_foldl_no_match {Bus : Type} (bus : Bus) :
    ∀ (routes : List (CDisplay.LogicRoute Bus)) (best : ℤ) (sel : String),
      (∀ r ∈ routes,
        ¬(CDisplay.routeMatches bus r = true ∧ best ≤ r.priority)) →
      routes.foldl (CDisplay.routeStep bus) (best, sel) = (best, sel) := by
  intro routes
  induction routes with
  | nil => intro best sel _; rfl
  | cons r0 rest ih =>
      intro best sel h
      have hstep : CDisplay.routeStep bus (best, sel) r0 = (best, sel) := by
        unfold CDisplay.routeStep
        rw [if_neg (h r0 (List.mem_cons_self r0 rest))]
      show rest.foldl (CDisplay.routeStep bus)
          (CDisplay.routeStep bus (best, sel) r0) = (best, sel)
      rw [hstep]
      exact ih best sel (fun r hr => h r (List.mem_cons_of_mem r0 hr))

theorem cdisplay_foldl_winner {Bus : Type} (bus : Bus) :
    ∀ (routes : List (CDisplay.LogicRoute Bus)) (best : ℤ) (sel : String),
      (∃ r0 ∈ routes,
        CDisplay.routeMatches bus r0 = true ∧ best ≤ r0.priority) →
      ∃ l1 r l2, routes = l1 ++ r :: l2 ∧
        CDisplay.routeMatches bus r = true ∧ best ≤ r.priority ∧
        routes.foldl (CDisplay.routeStep bus) (best, sel) =
          (r.priority, r.target_screen) ∧
        (∀ r2 ∈ routes, CDisplay.routeMatches bus r2 = true →
          best ≤ r2.priority → r2.priority ≤ r.priority) ∧
        (∀ r2 ∈ l2, CDisplay.routeMatches bus r2 = true →
          r2.priority < r.priority) := by
  intro routes
  induction routes with
  | nil =>
      intro best sel h
      simp at h
  | cons r0 rest ih =>
      intro best sel hex
      by_cases h0 : CDisplay.routeMatches bus r0 = true ∧ best ≤ r0.priority
      · have hstep : CDisplay.routeStep bus (best, sel) r0 =
            (r0.priority, r0.target_screen) := by
          unfold CDisplay.routeStep
          rw [if_pos h0]
        by_cases hrest : ∃ r1 ∈ rest,
            CDisplay.routeMatches bus r1 = true ∧ r0.priority ≤ r1.priority
        · obtain ⟨l1, r, l2, heq, hm, hge, hfold, hmax, hafter⟩ :=
            ih r0.priority r0.target_screen hrest
          refine ⟨r0 :: l1, r, l2, by rw [heq, List.cons_append], hm,
            le_trans h0.2 hge, ?_, ?_, hafter⟩
          · show rest.foldl (CDisplay.routeStep bus)
                (CDisplay.routeStep bus (best, sel) r0) = _
            rw [hstep]
            exact hfold
          · intro r2 hr2 hm2 hb2
            rcases List.mem_cons.mp hr2 with rfl | hr2
            · exact hge
            · by_cases hcase : r0.priority ≤ r2.priority
              · exact hmax r2 hr2 hm2 hcase
              · exact le_trans (le_of_lt (by omega)) hge
        · refine ⟨[], r0, rest, rfl, h0.1, h0.2, ?_, ?_, ?_⟩
          · show rest.foldl (CDisplay.routeStep bus)
                (CDisplay.routeStep bus (best, sel) r0) = _
            rw [hstep]
            refine cdisplay_foldl_no_match bus rest r0.priority
              r0.target_screen ?_
            intro r1 hr1 hand
            exact hrest ⟨r1, hr1, hand⟩
          · intro r2 hr2 hm2 _
            rcases List.mem_cons.mp hr2 with rfl | hr2
            · exact le_refl _
            · by_cases hcase : r0.priority ≤ r2.priority
              · exact absurd ⟨r2, hr2, hm2, hcase⟩ hrest
              · omega
          · intro r2 hr2 hm2
            by_cases hcase : r0.priority ≤ r2.priority
            · exact absurd ⟨r2, hr2, hm2, hcase⟩ hrest
            · omega
      · have hstep : CDisplay.routeStep bus (best, sel) r0 = (best, sel) := by
          unfold CDisplay.routeStep
          rw [if_neg h0]
        have hex2 : ∃ r1 ∈ rest,
            CDisplay.routeMatches bus r1 = true ∧ best ≤ r1.priority := by
          obtain ⟨rr, hrr, hand⟩ := hex
          rcases List.mem_cons.mp hrr with rfl | hrr
          · exact absurd hand h0
          · exact ⟨rr, hrr, hand⟩
        obtain ⟨l1, r, l2, heq, hm, hge, hfold, hmax, hafter⟩ :=
          ih best sel hex2
        refine ⟨r0 :: l1, r, l2, by rw [heq, List.cons_append], hm, hge, ?_,
          ?_, hafter⟩
        · show rest.foldl (CDisplay.routeStep bus)
              (CDisplay.routeStep bus (best, sel) r0) = _
          rw [hstep]
          exact hfold
        · intro r2 hr2 hm2 hb2
          rcases List.mem_cons.mp hr2 with rfl | hr2
          · exact absurd ⟨hm2, hb2⟩ h0
          · exact hmax r2 hr2 hm2 hb2

/-- C1 counterexample: two registered rules of equal priority with true
predicates make `display_tick` select the later-registered target, while
the claim selects the earlier one; and on a later tick where no predicate
is true, `display_tick` retains the previously selected screen instead of
falling back to the default screen. -/
theorem c1_counterexample :
    CDisplay.display_tick_select
        [{ evalFn := some (fun _ => true), priority := 5,
           target_screen := "screen_a" },
         { evalFn := some (fun _ => true), priority := 5,
           target_screen := "screen_b" }] () "screen_default" = "screen_b" ∧
      CDisplay.claimedSelect
        [{ evalFn := some (fun _ => true), priority := 5,
           target_screen := "screen_a" },
         { evalFn := some (fun _ => true), priority := 5,
           target_screen := "screen_b" }] () "screen_default" = "screen_a" ∧
      ("screen_b" : String) ≠ "screen_a" ∧
      CDisplay.display_tick_select
        [{ evalFn := some (fun _ => false), priority := 5,
           target_screen := "screen_a" },
         { evalFn := some (fun _ => false), priority := 5,
           target_screen := "screen_b" }] ()
        (CDisplay.display_tick_select
          [{ evalFn := some (fun _ => true), priority := 5,
             target_screen := "screen_a" },
           { evalFn := some (fun _ => true), priority := 5,
             target_screen := "screen_b" }] () "screen_default") =
        "screen_b" ∧
      CDisplay.claimedSelect
        [{ evalFn := some (fun _ => false), priority := 5,
           target_screen := "screen_a" },
         { evalFn := some (fun _ => false), priority := 5,
           target_screen := "screen_b" }] () "screen_default" =
        "screen_default" ∧
      ("screen_b" : String) ≠ "screen_default" := by
  exact ⟨rfl, rfl, by decide, rfl, rfl, by decide⟩

/-- C1 (amended): a display tick leaves the previously selected screen in
place when no registered rule has a non-null predicate that is true with
priority at least -2147483647; otherwise it selects the target screen of
a matching rule of maximal priority, and every matching rule registered
after the winner has strictly smaller priority, so ties are broken in
favor of the later-registered rule. -/
theorem c1_amended_display_tick {Bus : Type}
    (routes : List (CDisplay.LogicRoute Bus)) (bus : Bus)
    (current : String) :
    ((∀ r ∈ routes, ¬(CDisplay.routeMatches bus r = true ∧
        CDisplay.initBestPriority ≤ r.priority)) →
      CDisplay.display_tick_select routes bus current = current) ∧
      (∀ r0 ∈ routes, CDisplay.routeMatches bus r0 = true →
        CDisplay.initBestPriority ≤ r0.priority →
        ∃ l1 r l2, routes = l1 ++ r :: l2 ∧
          CDisplay.routeMatches bus r = true ∧
          CDisplay.display_tick_select routes bus current =
            r.target_screen ∧
          (∀ r2 ∈ routes, CDisplay.routeMatches bus r2 = true →
            CDisplay.initBestPriority ≤ r2.priority →
            r2.priority ≤ r.priority) ∧
          (∀ r2 ∈ l2, CDisplay.routeMatches bus r2 = true →
            r2.priority < r.priority)) := by
  constructor
  · intro h
    unfold CDisplay.display_tick_select
    rw [cdisplay_foldl_no_match bus routes CDisplay.initBestPriority
      current h]
  · intro r0 hr0 hm hb
    obtain ⟨l1, r, l2, heq, hm2, _, hfold, hmax, hafter⟩ :=
      cdisplay_foldl_winner bus routes CDisplay.initBestPriority current
        ⟨r0, hr0, hm, hb⟩
    refine ⟨l1, r, l2, heq, hm2, ?_, hmax, hafter⟩
    unfold CDisplay.display_tick_select
    rw [hfold]

/-- Witness for C1 (amended): a single never-matching rule leaves the
current screen selected. -/
theorem c1_amended_display_tick_witness :
    CDisplay.routeMatches ()
        ({ evalFn := some (fun _ => false), priority := 5,
           target_screen := "screen_a" } : CDisplay.LogicRoute Unit) =
        false ∧
      CDisplay.display_tick_select
        [({ evalFn := some (fun _ => false), priority := 5,
            target_screen := "screen_a" } : CDisplay.LogicRoute Unit)] ()
        "screen_default" = "screen_default" :=
  ⟨by decide,
    (c1_amended_display_tick
        [({ evalFn := some (fun _ => false), priority := 5,
            target_screen := "screen_a" } : CDisplay.LogicRoute Unit)] ()
        "screen_default").1 (by decide)⟩

/-- C4 counterexample: a Sum logic channel whose first input channel
holds NaN evaluates to the sum of the remaining inputs (the NaN was
replaced by 0 at fetch time), not to NaN, so NaN does not propagate
through arithmetic operations. -/
theorem c4_counterexample :
    RDChan.evaluate_logic
        { operation := RDChan.RD_LogicOperation.SUM,
          input_channels := fun i => 10 + i, input_count := 2,
          parameters := fun _ => 0 }
        (RDChan.registryGetValue [(10, FVal.nan), (11, FVal.fin 5)]) =
        FVal.fin 5 ∧
      FVal.fin 5 ≠ FVal.nan := by
  constructor
  · simp [RDChan.evaluate_logic, RDChan.logicInputs, RDChan.effCount,
      RDChan.registryGetValue, FVal.toQ, List.lookup, List.range_succ]
  · decide

/-- C4 (amended): every referenced input of a Logic channel is read first
and any NaN (including the NaN that `RD_Channel_GetValue` returns for a
missing channel) is replaced by 0 before the operation runs; hence NaN
contributes 0 to arithmetic operations, is treated as false by boolean
operations, and a missing input channel contributes 0. -/
theorem c4_amended_nan_sanitized (cfg : RDChan.RD_LogicConfig)
    (getValue : ℕ → FVal) :
    RDChan.evaluate_logic cfg getValue =
        RDChan.evaluate_logic cfg
          (fun c => FVal.fin (FVal.toQ (getValue c))) ∧
      FVal.toQ FVal.nan = 0 ∧
      ∀ (chans : List (ℕ × FVal)) (c : ℕ), chans.lookup c = none →
        RDChan.registryGetValue chans c = FVal.nan := by
  refine ⟨?_, rfl, ?_⟩
  · have hin : RDChan.logicInputs cfg getValue =
        RDChan.logicInputs cfg
          (fun c => FVal.fin (FVal.toQ (getValue c))) := by
      funext i
      unfold RDChan.logicInputs
      by_cases h : i < RDChan.effCount cfg
      · rw [if_pos h, if_pos h]
        rfl
      · rw [if_neg h, if_neg h]
    unfold RDChan.evaluate_logic
    rw [hin]
  · intro chans c h
    unfold RDChan.registryGetValue
    rw [h]

/-- Witness for C4 (amended): channel id 3 is missing from an empty
registry and `RD_Channel_GetValue` reports NaN for it. -/
theorem c4_amended_nan_sanitized_witness :
    ([] : List (ℕ × FVal)).lookup 3 = none ∧
      RDChan.registryGetValue [] 3 = FVal.nan :=
  ⟨rfl,
    (c4_amended_nan_sanitized (RDChan.hystCfg 0 0 0)
        (fun _ => FVal.nan)).2.2 [] 3 rfl⟩

/-- C5: evaluation of the concrete hysteresis scenario. Each single
evaluation outputs 1 when the input is at least `p1`, 0 when it is at
most `p0`, and the state parameter `p2` otherwise, but `evaluate_logic`
never writes the produced output back into `parameters[2]` even though
its comment says that `parameters[2]` stores the state; with parameters
`[30, 70, 0]` the input sequence 20,40,60,80,60,40,20 therefore produces
0,0,0,1,0,0,0 instead of the documented 0,0,0,1,1,1,0. -/
theorem c5_hysteresis_code_eval :
    RDChan.hysteresisRun 30 70 0 [20, 40, 60, 80, 60, 40, 20] =
        [0, 0, 0, 1, 0, 0, 0] ∧
      RDChan.hysteresisSpecRun 30 70 0 [20, 40, 60, 80, 60, 40, 20] =
        [0, 0, 0, 1, 1, 1, 0] ∧
      ([0, 0, 0, 1, 0, 0, 0] : List ℚ) ≠ [0, 0, 0, 1, 1, 1, 0] := by
  exact ⟨by decide, by decide, by decide⟩

/-- C6: evaluation of the armed-trigger scenario. The trigger fires on
the second sample and the logger transitions from `Armed` to
`Recording`, but the two samples held in the pre-trigger ring buffer are
never written to the output stream (the flush is an unimplemented TODO,
`advanced_logger.cpp` lines 240-242): the first sample ever written is
the newly arriving third sample. -/
theorem c6_pretrigger_not_flushed :
    c6AfterSample1.state = ALog.LogState.ARMED ∧
      c6AfterSample2.state = ALog.LogState.RECORDING ∧
      c6AfterSample2.trigger.is_triggered = true ∧
      c6AfterSample2.ring_buffer.samples.length = 2 ∧
      c6AfterSample2.output = [] ∧
      c6AfterSample3.output.map (fun s => s.timestamp_ms) = [300] ∧
      c6AfterSample3.ring_buffer.samples.length = 2 := by
  refine ⟨?_, ?_, ?_, ?_, ?_, ?_, ?_⟩ <;> decide

set_option maxRecDepth 4000

theorem sc3_step1 (t0 : ℕ) :
    LapT.lap_timer_update
      (LapT.lap_timer_load_track LapT.lap_timer_init 2 7004)
      true (fun _ => false) 0 0 0 t0 = sc3S1 t0 := rfl

theorem sc3_step2 (t0 t1 : ℕ) :
    LapT.lap_timer_update (sc3S1 t0) false (fun i => i == 0) 0 0 0 t1 =
      sc3S2 t0 t1 := rfl

theorem sc3_step3 (t0 t1 t2 : ℕ) :
    LapT.lap_timer_update (sc3S2 t0 t1) false (fun i => i == 1) 0 0 0 t2 =
      sc3S3 t0 t1 t2 := rfl

theorem sc3_step4 (t0 t1 t2 tf : ℕ) :
    LapT.lap_timer_update (sc3S3 t0 t1 t2) true (fun _ => false) 0 0 0 tf =
      sc3S4 t0 t1 t2 tf := rfl

theorem sc3_run_eq (t0 t1 t2 tf : ℕ) :
    c3Run t0 t1 t2 tf = sc3S4 t0 t1 t2 tf := by
  unfold c3Run
  rw [sc3_step1, sc3_step2, sc3_step3, sc3_step4]

/-- C3 counterexample: on a two-sector track with the lap opened at
t=1000, sector crossings at t=41000 and t=61000 and the lap closed at
t=91000, the completed lap is marked valid with total 90000 ms while its
recorded sector times are the cumulative stamps 40000 and 60000, whose
sum 100000 differs from the lap total by far more than 1 ms. -/
theorem c3_counterexample :
    (c3Run 1000 41000 61000 91000).laps.map
        (fun l => (l.lap_time_ms,
          l.sector_times_ms.foldl (fun a b => a + b) 0, l.is_valid)) =
      [(90000, 100000, true)] ∧
      90000 + 1 < 100000 := by
  exact ⟨by decide, by decide⟩

/-- C3 (amended): in the crossing scenario above with monotone
timestamps, the completed lap is always marked valid, its total time is
`tf - t0`, and the k-th recorded sector time is the cumulative elapsed
time `t_k - t0` from lap start at the k-th sector crossing (not a
per-sector duration); the sum of the recorded sector times therefore
need not equal the total lap time. -/
theorem c3_amended_sector_stamps (t0 t1 t2 tf : ℕ) (h01 : t0 ≤ t1)
    (h12 : t1 ≤ t2) (h2f : t2 ≤ tf) (hf : tf < 2 ^ 64) :
    (c3Run t0 t1 t2 tf).laps.map
        (fun l => (l.lap_time_ms, l.sector_times_ms.take 2, l.is_valid)) =
      [(tf - t0, [t1 - t0, t2 - t0], true)] := by
  have e1 : usub64 t1 t0 = t1 - t0 := usub64_eq_sub h01 (by omega)
  have e2 : usub64 t2 t0 = t2 - t0 := usub64_eq_sub (by omega) (by omega)
  have ef : usub64 tf t0 = tf - t0 := usub64_eq_sub (by omega) hf
  rw [sc3_run_eq]
  simp [sc3S4, sc3Lap, LapT.zeroRecord, e1, e2, ef]

/-- Witness for C3 (amended) at the concrete crossing times of the
counterexample scenario. -/
theorem c3_amended_sector_stamps_witness :
    (1000 ≤ 41000 ∧ 41000 ≤ 61000 ∧ 61000 ≤ 91000 ∧ 91000 < 2 ^ 64) ∧
      (c3Run 1000 41000 61000 91000).laps.map
        (fun l => (l.lap_time_ms, l.sector_times_ms.take 2, l.is_valid)) =
      [(90000, [40000, 60000], true)] :=
  ⟨⟨by decide, by decide, by decide, by norm_num⟩,
    c3_amended_sector_stamps 1000 41000 61000 91000 (by decide) (by decide)
      (by decide) (by norm_num)⟩

/-- C9: the delta computation of `lap_timer_update` uses only the current
elapsed time and the best lap total: with exact arithmetic,
`expected = trunc(best_total * (c / best_total)) = c`, so the stored
delta is 0 for every elapsed time (the float version is zero up to
rounding), and the result is independent of the best lap's sector times
and of position along the track (any best record with the same total
yields the same delta). -/
theorem c9_delta_always_zero (best : LapT.LapRecord) (current_time : ℕ)
    (hbest : 0 < best.lap_time_ms) :
    LapT.computeLapDelta best current_time = 0 ∧
      ∀ best2 : LapT.LapRecord, best2.lap_time_ms = best.lap_time_ms →
        LapT.computeLapDelta best2 current_time =
          LapT.computeLapDelta best current_time := by
  constructor
  · have hb : (best.lap_time_ms : ℚ) ≠ 0 := Nat.cast_ne_zero.mpr (by omega)
    show (current_time : ℤ) -
        LapT.truncQ ((best.lap_time_ms : ℚ) *
          ((current_time : ℚ) / (best.lap_time_ms : ℚ))) = 0
    rw [← mul_div_assoc, mul_div_cancel_left₀ _ hb]
    unfold LapT.truncQ
    simp
  · intro best2 h
    unfold LapT.computeLapDelta
    rw [h]

/-- Witness for C9 at a 90-second best lap and 30 seconds of elapsed
time. -/
theorem c9_delta_always_zero_witness :
    0 < ({ LapT.zeroRecord with lap_time_ms := 90000 } :
        LapT.LapRecord).lap_time_ms ∧
      LapT.computeLapDelta
        { LapT.zeroRecord with lap_time_ms := 90000 } 30000 = 0 :=
  ⟨by decide,
    (c9_delta_always_zero { LapT.zeroRecord with lap_time_ms := 90000 }
      30000 (by decide)).1⟩
